import Mathlib

/-!
Verification development for the `run` cluster supervisor
(`run_cluster.py`, `prepare_credentials.py`).

The Python code is shallowly embedded: the filesystem is an explicit map
from path strings to optional file contents, OS process creation and
signal delivery are oracles passed in as parameters, and each Python
function becomes a pure Lean function threading that state.  Machine-level
effects (actual signals, chmod bits) that no claim depends on are recorded
as an action trace where a claim mentions them and omitted otherwise.
-/

/-- A filesystem: maps a path to `some contents` when the file exists. -/
abbrev FS : Type := String → Option String

/-- Write (create or overwrite) a file. Mirrors `open(path, 'w'); f.write(v)`. -/
def fsWrite (fs : FS) (p v : String) : FS :=
  fun q => if q = p then some v else fs q

/-- `self.cluster_dir` with its default value `"rl-swarm-cluster"`
(`ClusterManager.__init__`, run_cluster.py line 10). -/
def cluster_dir : String := "rl-swarm-cluster"

/-- `self.cluster_dir / f"node_{node_id}"` (run_cluster.py lines 16, 87, 110). -/
def node_dir (node_id : Nat) : String :=
  cluster_dir ++ "/node_" ++ toString node_id

/-- The file names whose existence `check_node_ready` requires under the
node directory (run_cluster.py lines 89–94). -/
def ready_required_names : List String :=
  ["swarm.pem", "userApiKey.json", "userData.json", "main.py"]

/-- `required_files` of `check_node_ready` (run_cluster.py lines 89–94):
the required names resolved under the node's directory. -/
def required_files (node_id : Nat) : List String :=
  ready_required_names.map (fun n => node_dir node_id ++ "/" ++ n)

/-- `missing_files = [f.name for f in required_files if not f.exists()]`
(run_cluster.py line 96): the base names of the required files that do
not exist. `Path.exists` is the `(fs p).isSome` test. -/
def missing_files (fs : FS) (node_id : Nat) : List String :=
  ready_required_names.filter
    (fun n => (fs (node_dir node_id ++ "/" ++ n)).isNone)

/-- `ClusterManager.check_node_ready` (run_cluster.py lines 85–102):
returns `False` when any required file is missing, else `True`.
`Path.exists` never raises, so this is a total Boolean function. -/
def check_node_ready (fs : FS) (node_id : Nat) : Bool :=
  if missing_files fs node_id ≠ [] then false else true

/-- The file names the generated bash script re-validates:
`REQUIRED_FILES=("swarm.pem" "userApiKey.json" "userData.json")`
(run_cluster.py line 33, inside the script template). -/
def script_required_files : List String :=
  ["swarm.pem", "userApiKey.json", "userData.json"]

/-- Renders a list of names as the bash array literal body
`"a" "b" "c"` used on run_cluster.py line 33. -/
def bashArrayBody (names : List String) : String :=
  String.intercalate " " (names.map (fun n => "\"" ++ n ++ "\""))

/-- The `REQUIRED_FILES=(...)` line of the generated script
(run_cluster.py line 33). -/
def requiredFilesLine : String :=
  "REQUIRED_FILES=(" ++ bashArrayBody script_required_files ++ ")"

/-- The part of `script_content` before the `REQUIRED_FILES` line
(run_cluster.py lines 18–32).  Literal bash braces are written with
escapes; `{node_id}` interpolations become `toString node_id`. -/
def script_head (node_id : Nat) : String :=
  "#!/bin/bash\n\n# RL-Swarm Node " ++ toString node_id ++ " Runner\nNODE_ID=\"node_"
    ++ toString node_id ++ "\"\nNODE_DIR=\"$(pwd)\"\nPORT=$((8000 + "
    ++ toString node_id ++ "))\n\necho \"🚀 Starting RL-Swarm Node "
    ++ toString node_id
    ++ "...\"\necho \"Node Directory: $NODE_DIR\"\necho \"Port: $PORT\"\n\n"
    ++ "# Activate virtual environment\nsource venv_node_" ++ toString node_id
    ++ "/bin/activate\n\n# Check required files\n"

/-- The part of `script_content` after the `REQUIRED_FILES` line
(run_cluster.py lines 34–76). -/
def script_tail (node_id : Nat) : String :=
  "\nfor file in \"$\x7bREQUIRED_FILES[@]\x7d\"; do\n    if [ ! -f \"$file\" ]; then\n"
    ++ "        echo \"❌ Missing required file: $file\"\n"
    ++ "        echo \"Please run: python prepare_credentials.py\"\n        exit 1\n"
    ++ "    fi\ndone\n\n# Set proper permissions\nchmod 600 swarm.pem\n\n"
    ++ "# Environment variables\nexport CUDA_VISIBLE_DEVICES=0\n"
    ++ "export NODE_ID=\"$NODE_ID\"\nexport GPU_MEMORY_FRACTION=0.1\n\n"
    ++ "# GPU Memory settings\n"
    ++ "export PYTORCH_CUDA_ALLOC_CONF=\"max_split_size_mb:8192\"\n"
    ++ "export TF_MEMORY_GROWTH=true\n\n# Create log file with timestamp\n"
    ++ "LOG_FILE=\"logs/node_" ++ toString node_id
    ++ "_$(date +%Y%m%d_%H%M%S).log\"\necho \"📝 Logging to: $LOG_FILE\"\n\n"
    ++ "# Run the main application\necho \"🏃 Running main application...\"\n"
    ++ "python main.py \\\n    --node-id \"$NODE_ID\" \\\n    --port \"$PORT\" \\\n"
    ++ "    --gpu-memory-fraction 0.1 \\\n    2>&1 | tee \"$LOG_FILE\"\n\n"
    ++ "EXIT_CODE=$\x7bPIPESTATUS[0]\x7d\n\nif [ $EXIT_CODE -eq 0 ]; then\n"
    ++ "    echo \"✅ Node " ++ toString node_id ++ " completed successfully\"\n"
    ++ "else\n    echo \"❌ Node " ++ toString node_id
    ++ " failed with exit code: $EXIT_CODE\"\nfi\n\ndeactivate\nexit $EXIT_CODE\n"

/-- `script_content` (run_cluster.py lines 18–76): the full text of the
generated per-node launch script, a pure function of `node_id` (the base
port 8000 is a literal in the template). -/
def script_content (node_id : Nat) : String :=
  script_head node_id ++ requiredFilesLine ++ script_tail node_id

/-- `script_path = node_dir / f"run_node_{node_id}.sh"` (run_cluster.py line 78). -/
def script_path (node_id : Nat) : String :=
  node_dir node_id ++ "/run_node_" ++ toString node_id ++ ".sh"

/-- `ClusterManager.create_node_script` (run_cluster.py lines 14–83):
writes the script text to `script_path` and returns that path.
(The `os.chmod 0o755` call touches permission bits no claim depends on.) -/
def create_node_script (fs : FS) (node_id : Nat) : String × FS :=
  (script_path node_id, fsWrite fs (script_path node_id) (script_content node_id))

/-- One entry of `self.processes` (run_cluster.py lines 131–135). -/
structure Entry where
  node_id : Nat
  pid : Nat
  spath : String
  deriving Repr, DecidableEq

/-- `self.processes`: the supervisor's FleetTable, in insertion order. -/
abbrev FleetState : Type := List Entry

/-- Outcome of a `start_node` call, as the spec's taxonomy names it:
`None` after a failed readiness check is `NotReady`, `None` after a
`subprocess.Popen` exception is `SpawnError`, a process handle is success. -/
inductive StartOutcome where
  | notReady
  | spawnError
  | started (pid : Nat)
  deriving Repr, DecidableEq

/-- `ClusterManager.start_node` (run_cluster.py lines 104–141).
`writeOk` is the OS oracle for the `open/write` in `create_node_script`
(line 79, OUTSIDE the `try`: a failure there raises out of `start_node`,
modelled as `Except.error`); `spawn` is the oracle for `subprocess.Popen`
(line 124, inside the `try`: `none` means the spawn raised, caught on
line 139, returning `None` with no table insertion). -/
def start_node (fs : FS) (writeOk : Bool) (spawn : Option Nat) (node_id : Nat)
    (st : FleetState) : Except Unit (StartOutcome × FS × FleetState) :=
  if check_node_ready fs node_id = false then
    .ok (.notReady, fs, st)
  else if writeOk = false then
    .error ()
  else
    let fs' := (create_node_script fs node_id).2
    match spawn with
    | none => .ok (.spawnError, fs', st)
    | some pid =>
        .ok (.started pid, fs', st ++ [⟨node_id, pid, script_path node_id⟩])

/-- A JSON value. The credential templates' values are opaque to this
core; only the constructors the claims' scenarios use are needed. -/
inductive JVal where
  | str (s : String)
  | num (n : Int)
  deriving Repr, DecidableEq

/-- A JSON object: ordered key/value pairs, as Python dicts preserve
insertion order.  Templates parsed by `json.load` have unique keys. -/
abbrev JObj : Type := List (String × JVal)

/-- Python dict assignment `d[k] = v`: overwrite the value of an existing
key in place, or append a new key at the end. -/
def setKey : JObj → String → JVal → JObj
  | [], k, v => [(k, v)]
  | (k', v') :: rest, k, v =>
      if k' = k then (k, v) :: rest else (k', v') :: setKey rest k v

/-- `api_key_data = base_api_key.copy(); api_key_data["node_id"] = f"node_{i}"`
(prepare_credentials.py lines 52–55). -/
def materialize_api_key (base : JObj) (i : Nat) : JObj :=
  setKey base "node_id" (.str ("node_" ++ toString i))

/-- `user_data = base_user_data.copy(); user_data["node_id"] = f"node_{i}";
user_data["port"] = 8000 + i` (prepare_credentials.py lines 66–70). -/
def materialize_user_data (base : JObj) (i : Nat) : JObj :=
  setKey (setKey base "node_id" (.str ("node_" ++ toString i)))
    "port" (.num (8000 + (i : Int)))

/-- `credentials_dir = cluster_dir / "credentials"` (prepare_credentials.py line 8). -/
def credentials_dir : String := cluster_dir ++ "/credentials"

/-- A file under the shared credentials (template) directory. -/
def cred_path (n : String) : String := credentials_dir ++ "/" ++ n

/-- A file under a node's working directory. -/
def node_file (i : Nat) (n : String) : String := node_dir i ++ "/" ++ n

/-- `required_files` of prepare_credentials.py (line 13): the three
shared template files. -/
def cred_required_files : List String :=
  ["swarm.pem", "userApiKey.json", "userData.json"]

/-- The template files absent from the credentials directory
(prepare_credentials.py lines 14–19). -/
def cred_missing (fs : FS) : List String :=
  cred_required_files.filter (fun n => (fs (cred_path n)).isNone)

/-- The per-iteration body of the `for i in range(1, 11)` loop
(prepare_credentials.py lines 42–77): copy `swarm.pem` from the
credentials directory and write the two materialized JSON files, all
under the node's directory.  `dump` is the `json.dump(..., indent=2)`
serializer (external library, opaque to this core). -/
def prepare_node_files (dump : JObj → String) (baseApi baseData : JObj)
    (i : Nat) (fs : FS) : FS :=
  fsWrite
    (fsWrite
      (fsWrite fs (node_file i "swarm.pem") ((fs (cred_path "swarm.pem")).getD ""))
      (node_file i "userApiKey.json") (dump (materialize_api_key baseApi i)))
    (node_file i "userData.json") (dump (materialize_user_data baseData i))

/-- The `for i in range(1, 11)` loop of prepare_credentials.py. -/
def prepare_loop (dump : JObj → String) (baseApi baseData : JObj) :
    List Nat → FS → FS
  | [], fs => fs
  | i :: rest, fs =>
      prepare_loop dump baseApi baseData rest
        (prepare_node_files dump baseApi baseData i fs)

/-- `prepare_credentials` (prepare_credentials.py lines 6–83): returns
`False` without touching the filesystem when a template file is missing
(lines 21–26) or its JSON fails to parse (lines 31–39, `parse` is the
`json.load` oracle); otherwise writes the per-node files for nodes 1–10
and returns `True`. -/
def prepare_credentials (parse : String → Option JObj) (dump : JObj → String)
    (fs : FS) : Bool × FS :=
  if cred_missing fs ≠ [] then (false, fs)
  else
    match (fs (cred_path "userApiKey.json")).bind parse,
          (fs (cred_path "userData.json")).bind parse with
    | some baseApi, some baseData =>
        (true, prepare_loop dump baseApi baseData (List.range' 1 10) fs)
    | _, _ => (false, fs)

/-- An OS-level action of the shutdown sequence, in program order. -/
inductive SigAction where
  | termGroup (pgid : Nat)
  | termProc (pid : Nat)
  | waitGrace (t : Nat)
  | killProc (pid : Nat)
  deriving Repr, DecidableEq

/-- `ClusterManager.stop_all_nodes` (run_cluster.py lines 159–184).
First loop (163–171): `os.killpg(os.getpgid(pid), signal.SIGTERM)` per
entry — since children are spawned with `preexec_fn=os.setsid`, the
process-group id equals the pid; `groupOk pid` says whether group
delivery succeeds, otherwise the nested `except` falls back to
`process.terminate()` (whose own failure is swallowed).  Then
`time.sleep(3)` (173).  Second loop (176–181): `process.kill()` for each
entry whose `poll()` is still `None` (`alive`).  Finally
`self.processes.clear()` (183), unconditionally.  Returns the ordered
action trace and the final table. -/
def stop_all_nodes (groupOk : Nat → Bool) (alive : Nat → Bool)
    (st : FleetState) : List SigAction × FleetState :=
  (st.map (fun e => if groupOk e.pid then SigAction.termGroup e.pid
      else SigAction.termProc e.pid)
    ++ [SigAction.waitGrace 3]
    ++ (st.filter (fun e => alive e.pid)).map
        (fun e => SigAction.killProc e.pid),
   [])

/-- Aggregate result of `start_all_nodes`: `report` is `some count` when
the loop ran to completion and printed its success count (run_cluster.py
line 157), `none` when an exception escaped the loop; `attempted` lists
the node ids for which `start_node` was invoked, in order. -/
structure StartAllResult where
  report : Option Nat
  fsOut : FS
  table : FleetState
  attempted : List Nat

/-- The `for i in range(1, total_nodes + 1)` loop of `start_all_nodes`
(run_cluster.py lines 147–156): calls `start_node` per id in increasing
order; a `None` return (NotReady or SpawnError) just skips the count
increment, but an exception raised by `start_node` (script-write
failure, line 79, outside any `try`) propagates and aborts the loop. -/
def start_all_go (writeOk : Nat → Bool) (spawn : Nat → Option Nat) :
    List Nat → FS → FleetState → Nat → List Nat → StartAllResult
  | [], fs, st, count, att => ⟨some count, fs, st, att⟩
  | i :: rest, fs, st, count, att =>
      match start_node fs (writeOk i) (spawn i) i st with
      | .error _ => ⟨none, fs, st, att ++ [i]⟩
      | .ok (.started _, fs', st') =>
          start_all_go writeOk spawn rest fs' st' (count + 1) (att ++ [i])
      | .ok (_, fs', st') =>
          start_all_go writeOk spawn rest fs' st' count (att ++ [i])

/-- `ClusterManager.start_all_nodes` (run_cluster.py lines 143–157). -/
def start_all_nodes (writeOk : Nat → Bool) (spawn : Nat → Option Nat)
    (total_nodes : Nat) (fs : FS) (st : FleetState) : StartAllResult :=
  start_all_go writeOk spawn (List.range' 1 total_nodes) fs st 0 []

/-- The observable phases of one `signal_handler` invocation
(run_cluster.py lines 218–221): the body of `cluster.stop_all_nodes()` —
the SIGTERM loop (163–171), the `time.sleep(3)` grace period (173), the
kill loop (176–181) and the table clear (183) — followed by
`sys.exit(0)` (221). -/
inductive HCmd where
  | termLoop
  | graceSleep
  | killLoop
  | clearTable
  | exitZero
  deriving Repr, DecidableEq

/-- The command sequence run by one delivery of SIGINT/SIGTERM. -/
def handlerBody : List HCmd :=
  [HCmd.termLoop, HCmd.graceSleep, HCmd.killLoop, HCmd.clearTable,
   HCmd.exitZero]

/-- A frame (the commands an invocation still has to run) is inside
`stop_all_nodes` after it executed `termLoop` and before `clearTable`. -/
def insideStopAll : List HCmd → Bool
  | [HCmd.graceSleep, HCmd.killLoop, HCmd.clearTable, HCmd.exitZero] => true
  | [HCmd.killLoop, HCmd.clearTable, HCmd.exitZero] => true
  | [HCmd.clearTable, HCmd.exitZero] => true
  | _ => false

/-- Configuration of the supervising process under signal delivery:
the stack of active handler invocations (innermost first — CPython runs
a newly delivered handler on top of whatever the main thread, possibly
an earlier handler, was executing), how many times `stop_all_nodes` was
entered, whether some entry happened while another invocation was still
inside `stop_all_nodes`, and the exit status once `sys.exit` ran. -/
structure SigConfig where
  stack : List (List HCmd)
  stopAllEntries : Nat
  reentered : Bool
  exited : Option Nat
  deriving Repr, DecidableEq

def initSigConfig : SigConfig := ⟨[], 0, false, none⟩

/-- Environment events: delivery of SIGINT/SIGTERM, or execution of the
next pending command by the (single-threaded) interpreter. -/
inductive SigEvent where
  | deliver
  | exec
  deriving Repr, DecidableEq

/-- One step.  `signal.signal(...)` (run_cluster.py lines 223–224)
installs `signal_handler` for both signals, so every delivery before
exit pushes a fresh `handlerBody` invocation — the handler sets no
in-flight flag that could suppress this.  Executing `termLoop` while a
suspended frame is still inside `stop_all_nodes` is a concurrent
re-entry of `stop_all_nodes`. -/
def sigStep (c : SigConfig) : SigEvent → SigConfig
  | .deliver =>
      if c.exited.isSome then c
      else ⟨handlerBody :: c.stack, c.stopAllEntries, c.reentered, c.exited⟩
  | .exec =>
      if c.exited.isSome then c
      else
        match c.stack with
        | [] => c
        | [] :: rest => ⟨rest, c.stopAllEntries, c.reentered, c.exited⟩
        | (cmd :: k) :: rest =>
            match cmd with
            | .termLoop =>
                ⟨k :: rest, c.stopAllEntries + 1,
                 c.reentered || rest.any insideStopAll, c.exited⟩
            | .exitZero => ⟨k :: rest, c.stopAllEntries, c.reentered, some 0⟩
            | _ => ⟨k :: rest, c.stopAllEntries, c.reentered, c.exited⟩

/-- Run a sequence of events from the initial configuration. -/
def sigRun (evs : List SigEvent) : SigConfig :=
  evs.foldl sigStep initSigConfig

/-- One cycle of the loop body of `ClusterManager.monitor_nodes`
(run_cluster.py lines 191–208): every entry whose `poll()` reports
completion is logged and removed from `self.processes`; live ones stay. -/
def monitor_cycle (alive : Nat → Bool) (st : FleetState) : FleetState :=
  st.filter (fun e => alive e.pid)

/-- A public supervisor operation together with its environment oracles
(readiness comes from the filesystem component of the state). -/
inductive SupOp where
  | startNodeOp (node_id : Nat) (writeOk : Bool) (spawn : Option Nat)
  | startAllOp (total_nodes : Nat) (writeOk : Nat → Bool)
      (spawn : Nat → Option Nat)
  | stopAllOp (groupOk alive : Nat → Bool)
  | monitorCycleOp (alive : Nat → Bool)

/-- Effect of one public operation on the supervisor state (filesystem
and FleetTable).  An exception escaping `start_node` leaves the table as
it was at the raise point. -/
def applyOp : SupOp → FS × FleetState → FS × FleetState
  | .startNodeOp i wOk sp, (fs, st) =>
      match start_node fs wOk sp i st with
      | .error _ => (fs, st)
      | .ok (_, fs', st') => (fs', st')
  | .startAllOp n wOk sp, (fs, st) =>
      ((start_all_nodes wOk sp n fs st).fsOut,
       (start_all_nodes wOk sp n fs st).table)
  | .stopAllOp gOk alive, (fs, st) => (fs, (stop_all_nodes gOk alive st).2)
  | .monitorCycleOp alive, (fs, st) => (fs, monitor_cycle alive st)

/-- States reachable from a freshly constructed `ClusterManager`
(empty process list, provisioned filesystem `fs0`) through the public
operations under arbitrary oracle behaviour. -/
inductive SupReachable (fs0 : FS) : FS × FleetState → Prop where
  | init : SupReachable fs0 (fs0, [])
  | step (c : FS × FleetState) (op : SupOp) :
      SupReachable fs0 c → SupReachable fs0 (applyOp op c)

/-- The node ids currently recorded in the FleetTable, in order. -/
def tableIds (st : FleetState) : List Nat := st.map Entry.node_id

/-- `opFresh op st`: the operation does not (re-)start a node_id already
present in the table — `start_all_nodes` over N nodes may insert any id
in 1..N, so all of them must be absent. -/
def opFresh : SupOp → FleetState → Bool
  | .startNodeOp i _ _, st => !(tableIds st).contains i
  | .startAllOp n _ _, st =>
      (List.range' 1 n).all (fun i => !(tableIds st).contains i)
  | .stopAllOp _ _, _ => true
  | .monitorCycleOp _, _ => true

/-- A sequence of operations is fresh when each operation is fresh for
the state it actually runs in. -/
def seqFresh : List SupOp → FS × FleetState → Bool
  | [], _ => true
  | op :: rest, c => opFresh op c.2 && seqFresh rest (applyOp op c)

/-- Run a sequence of public operations. -/
def runOps : List SupOp → FS × FleetState → FS × FleetState
  | [], c => c
  | op :: rest, c => runOps rest (applyOp op c)

/-- C5: for every filesystem and node_id, `check_node_ready` returns
`false` iff at least one required artifact is absent from the node's
working directory; being a total Boolean function of `Path.exists`
results, it never raises. -/
theorem check_node_ready_false_iff_missing (fs : FS) (node_id : Nat) :
    check_node_ready fs node_id = false ↔
      ∃ p ∈ required_files node_id, fs p = none := by
  have key : missing_files fs node_id ≠ [] ↔
      ∃ p ∈ required_files node_id, fs p = none := by
    constructor
    · intro h
      rcases List.exists_mem_of_ne_nil _ h with ⟨n, hn⟩
      rcases List.mem_filter.mp hn with ⟨hmem, hnone⟩
      refine ⟨node_dir node_id ++ "/" ++ n, ?_, ?_⟩
      · exact List.mem_map.mpr ⟨n, hmem, rfl⟩
      · exact Option.isNone_iff_eq_none.mp (by simpa using hnone)
    · rintro ⟨p, hmem, hnone⟩
      rcases List.mem_map.mp hmem with ⟨n, hn, rfl⟩
      exact List.ne_nil_of_mem (List.mem_filter.mpr ⟨hn, by simp [hnone]⟩)
  unfold check_node_ready
  by_cases hc : missing_files fs node_id ≠ []
  · rw [if_pos hc]
    simpa using key.mp hc
  · rw [if_neg hc]
    have hne : ¬ ∃ p ∈ required_files node_id, fs p = none :=
      fun hx => hc (key.mpr hx)
    simpa using hne

/-- C1: `start_node` leaves the FleetTable unchanged on a `NotReady` or
`SpawnError` outcome and appends exactly one entry, keyed by the given
node_id, on success. -/
theorem start_node_table_effect (fs : FS) (writeOk : Bool) (spawn : Option Nat)
    (node_id : Nat) (st : FleetState) :
    match start_node fs writeOk spawn node_id st with
    | .ok (.notReady, _, st') => st' = st
    | .ok (.spawnError, _, st') => st' = st
    | .ok (.started pid, _, st') =>
        st' = st ++ [⟨node_id, pid, script_path node_id⟩]
    | .error _ => True := by
  unfold start_node
  by_cases h : check_node_ready fs node_id = false
  · simp [h]
  · by_cases hw : writeOk = false
    · simp [h, hw]
    · cases spawn <;> simp [h, hw]

/-- C7: regenerating the launch script for the same node_id is
deterministic and idempotent: the written content is the byte string
`script_content node_id` (a pure function of node_id and the literal
base port 8000), and a second generation leaves the filesystem exactly
as the first left it. -/
theorem create_node_script_idempotent (fs : FS) (node_id : Nat) :
    ((create_node_script fs node_id).2 (script_path node_id)
        = some (script_content node_id))
    ∧ (create_node_script (create_node_script fs node_id).2 node_id).2
        = (create_node_script fs node_id).2 := by
  refine ⟨by simp [create_node_script, fsWrite], ?_⟩
  funext q
  by_cases h : q = script_path node_id <;>
    simp [create_node_script, fsWrite, h]

/-- C4 counterexample: the file set the generated script re-validates is
NOT equal to the set checked by `check_node_ready`: the entry point
`main.py` is required by the Readiness Checker but absent from the
script's `REQUIRED_FILES` list. -/
theorem script_required_ne_ready_required :
    script_required_files ≠ ready_required_names
    ∧ "main.py" ∈ ready_required_names
    ∧ "main.py" ∉ script_required_files := by
  decide

/-- C4 amended: the generated script re-validates exactly the
Readiness Checker's required set MINUS the entry-point file `main.py`
(i.e. the three credential artifacts), and that list appears verbatim
as the `REQUIRED_FILES` line of every generated script. -/
theorem script_revalidates_ready_minus_entrypoint :
    ready_required_names = script_required_files ++ ["main.py"]
    ∧ ∀ node_id : Nat, ∃ pre post,
        script_content node_id = pre ++ (requiredFilesLine ++ post) := by
  refine ⟨by decide, fun node_id => ⟨script_head node_id, script_tail node_id, ?_⟩⟩
  simp [script_content, String.append_assoc]

theorem lookup_setKey_self (d : JObj) (k : String) (v : JVal) :
    (setKey d k v).lookup k = some v := by
  induction d with
  | nil => simp [setKey]
  | cons p rest ih =>
    obtain ⟨k', v'⟩ := p
    by_cases h : k' = k
    · simp [setKey, h]
    · have hkk : (k == k') = false := beq_eq_false_iff_ne.mpr (Ne.symm h)
      simp [setKey, h, List.lookup, hkk, ih]

theorem lookup_setKey_ne (d : JObj) (k k' : String) (v : JVal) (h : k' ≠ k) :
    (setKey d k v).lookup k' = d.lookup k' := by
  have hk : (k' == k) = false := beq_eq_false_iff_ne.mpr h
  induction d with
  | nil => simp [setKey, List.lookup, hk]
  | cons p rest ih =>
    obtain ⟨k₀, v₀⟩ := p
    by_cases h0 : k₀ = k
    · subst h0
      simp [setKey, List.lookup, hk]
    · by_cases h1 : k' = k₀
      · subst h1
        simp [setKey, h0, List.lookup]
      · have hk1 : (k' == k₀) = false := beq_eq_false_iff_ne.mpr h1
        simp [setKey, h0, List.lookup, hk1, ih]

/-- C6: per-node credential materialization only adds/overwrites the
`node_id` field (and, for the user-data file, the `port` field), and
preserves every other top-level key verbatim; concretely the template
`{"account":"x"}` at node 5 becomes `{"account":"x","node_id":"node_5"}`
(plus `"port":8005` for the user-data file). -/
theorem materialize_node_fields (base : JObj) (i : Nat) (k : String) :
    ((materialize_api_key base i).lookup "node_id"
        = some (JVal.str ("node_" ++ toString i)))
    ∧ (k ≠ "node_id" →
        (materialize_api_key base i).lookup k = base.lookup k)
    ∧ ((materialize_user_data base i).lookup "node_id"
        = some (JVal.str ("node_" ++ toString i)))
    ∧ ((materialize_user_data base i).lookup "port"
        = some (JVal.num (8000 + (i : Int))))
    ∧ (k ≠ "node_id" → k ≠ "port" →
        (materialize_user_data base i).lookup k = base.lookup k)
    ∧ (materialize_api_key [("account", JVal.str "x")] 5
        = [("account", JVal.str "x"), ("node_id", JVal.str "node_5")])
    ∧ (materialize_user_data [("account", JVal.str "x")] 5
        = [("account", JVal.str "x"), ("node_id", JVal.str "node_5"),
           ("port", JVal.num 8005)]) := by
  refine ⟨lookup_setKey_self base "node_id" _, ?_, ?_, ?_, ?_, by decide, by decide⟩
  · intro hk
    exact lookup_setKey_ne base "node_id" k _ hk
  · rw [materialize_user_data,
      lookup_setKey_ne _ "port" "node_id" _ (by decide)]
    exact lookup_setKey_self base "node_id" _
  · exact lookup_setKey_self _ "port" _
  · intro hk hp
    rw [materialize_user_data, lookup_setKey_ne _ "port" k _ hp]
    exact lookup_setKey_ne base "node_id" k _ hk

/-- Witness for `materialize_node_fields` at the spec's scenario. -/
theorem materialize_node_fields_witness :
    (materialize_api_key [("account", JVal.str "x")] 5).lookup "account"
      = some (JVal.str "x")
    ∧ (materialize_user_data [("account", JVal.str "x")] 5).lookup "account"
      = some (JVal.str "x") := by
  have h := materialize_node_fields [("account", JVal.str "x")] 5 "account"
  exact ⟨(h.2.1 (by decide)).trans (by decide),
    (h.2.2.2.2.1 (by decide) (by decide)).trans (by decide)⟩

/-- A template-directory path is never a node-directory path: the two
differ at character 17 (`c` of `credentials` vs `n` of `node_`). -/
theorem cred_path_ne_node_file (n m : String) (i : Nat) :
    cred_path n ≠ node_file i m := by
  intro h
  have e1 : cred_path n = "rl-swarm-cluster/credentials/" ++ n := by
    rw [cred_path, credentials_dir, cluster_dir]
    rw [show ("rl-swarm-cluster" ++ "/credentials" ++ "/" : String)
      = "rl-swarm-cluster/credentials/" from by decide]
  have e2 : node_file i m
      = ("rl-swarm-cluster/node_" ++ toString i ++ "/") ++ m := by
    rw [node_file, node_dir, cluster_dir]
    rw [show ("rl-swarm-cluster" ++ "/node_" : String)
      = "rl-swarm-cluster/node_" from by decide]
  rw [e1, e2] at h
  have hd := congrArg String.data h
  simp only [String.data_append, List.append_assoc] at hd
  have ht := congrArg (List.take 18) hd
  rw [List.take_append_of_le_length (by decide),
    List.take_append_of_le_length (by decide)] at ht
  exact absurd ht (by decide)

theorem prepare_loop_frame (dump : JObj → String) (a d : JObj)
    (ids : List Nat) :
    ∀ (fs : FS) (p : String),
      (∀ i ∈ ids, ∀ m ∈ cred_required_files, p ≠ node_file i m) →
      prepare_loop dump a d ids fs p = fs p := by
  induction ids with
  | nil => intro fs p _; rfl
  | cons i rest ih =>
    intro fs p h
    have hrest : ∀ j ∈ rest, ∀ m ∈ cred_required_files, p ≠ node_file j m :=
      fun j hj => h j (List.mem_cons_of_mem _ hj)
    have h1 := h i (List.mem_cons_self _ _) "swarm.pem" (by decide)
    have h2 := h i (List.mem_cons_self _ _) "userApiKey.json" (by decide)
    have h3 := h i (List.mem_cons_self _ _) "userData.json" (by decide)
    rw [prepare_loop, ih _ _ hrest]
    simp [prepare_node_files, fsWrite, h1, h2, h3]

theorem prepare_writes_only_node_files (parse : String → Option JObj)
    (dump : JObj → String) (fs : FS) (p : String)
    (h : (prepare_credentials parse dump fs).2 p ≠ fs p) :
    ∃ i ∈ List.range' 1 10, ∃ m ∈ cred_required_files, p = node_file i m := by
  unfold prepare_credentials at h
  by_cases hm : cred_missing fs ≠ []
  · rw [if_pos hm] at h
    exact absurd rfl h
  · rw [if_neg hm] at h
    rcases hA : (fs (cred_path "userApiKey.json")).bind parse with _ | baseApi <;>
      rcases hD : (fs (cred_path "userData.json")).bind parse with _ | baseData <;>
        rw [hA, hD] at h
    · exact absurd rfl h
    · exact absurd rfl h
    · exact absurd rfl h
    · by_contra hno
      push_neg at hno
      exact h (prepare_loop_frame dump baseApi baseData (List.range' 1 10) fs p
        (fun i hi m hm' => hno i hi m hm'))

theorem prepare_false_leaves_fs (parse : String → Option JObj)
    (dump : JObj → String) (fs : FS)
    (h : (prepare_credentials parse dump fs).1 = false) :
    (prepare_credentials parse dump fs).2 = fs := by
  unfold prepare_credentials at h ⊢
  by_cases hm : cred_missing fs ≠ []
  · rw [if_pos hm]
  · rw [if_neg hm] at h ⊢
    revert h
    rcases (fs (cred_path "userApiKey.json")).bind parse with _ | baseApi <;>
      rcases (fs (cred_path "userData.json")).bind parse with _ | baseData <;>
        intro h <;> simp_all

/-- C10: `prepare_credentials` never modifies the shared template files
under the credentials directory; every write lands in a per-node
directory (node 1–10, one of the three credential artifacts); and when
it returns `False` (missing template or invalid JSON) the filesystem is
left exactly as it was — no node files were written. -/
theorem prepare_credentials_frame (parse : String → Option JObj)
    (dump : JObj → String) (fs : FS) :
    (∀ n, (prepare_credentials parse dump fs).2 (cred_path n)
        = fs (cred_path n))
    ∧ ((prepare_credentials parse dump fs).1 = false →
        (prepare_credentials parse dump fs).2 = fs)
    ∧ (∀ p, (prepare_credentials parse dump fs).2 p ≠ fs p →
        ∃ i ∈ List.range' 1 10, ∃ m ∈ cred_required_files,
          p = node_file i m) := by
  refine ⟨?_, prepare_false_leaves_fs parse dump fs,
    prepare_writes_only_node_files parse dump fs⟩
  intro n
  by_contra hne
  rcases prepare_writes_only_node_files parse dump fs _ hne with
    ⟨i, _, m, _, heq⟩
  exact cred_path_ne_node_file n m i heq

/-- Witness for `prepare_credentials_frame`: with every file absent the
call reports `False` and the filesystem is returned untouched. -/
theorem prepare_credentials_frame_witness :
    (prepare_credentials (fun _ => none) (fun _ => "") (fun _ => none)).2
        = (fun _ => none)
    ∧ (prepare_credentials (fun _ => none) (fun _ => "") (fun _ => none)).2
        "rl-swarm-cluster/credentials/swarm.pem" = none := by
  have h := prepare_credentials_frame (fun _ => none) (fun _ => "")
    (fun _ => none)
  exact ⟨h.2.1 (by decide), (h.2.1 (by decide)) ▸ rfl⟩

/-- C2: when group signalling is deliverable, `stop_all_nodes` sends
SIGTERM to every recorded process group, then waits the fixed 3-second
grace period, then sends SIGKILL to each individual process still alive,
and afterwards unconditionally clears the FleetTable — so a zero-delay
poll finds the table empty (in particular no Running entry). -/
theorem stop_all_nodes_spec (groupOk alive : Nat → Bool) (st : FleetState)
    (h : ∀ e ∈ st, groupOk e.pid = true) :
    (stop_all_nodes groupOk alive st).1
      = st.map (fun e => SigAction.termGroup e.pid)
        ++ [SigAction.waitGrace 3]
        ++ (st.filter (fun e => alive e.pid)).map
            (fun e => SigAction.killProc e.pid)
    ∧ (stop_all_nodes groupOk alive st).2 = []
    ∧ ∀ e, e ∉ (stop_all_nodes groupOk alive st).2 := by
  refine ⟨?_, rfl, fun e he => by simp [stop_all_nodes] at he⟩
  unfold stop_all_nodes
  have hmap : st.map (fun e => if groupOk e.pid then SigAction.termGroup e.pid
      else SigAction.termProc e.pid)
      = st.map (fun e => SigAction.termGroup e.pid) :=
    List.map_congr_left (fun e he => by simp [h e he])
  rw [hmap]

/-- Witness for `stop_all_nodes_spec` on a one-entry fleet whose process
dies within the grace period. -/
theorem stop_all_nodes_spec_witness :
    (stop_all_nodes (fun _ => true) (fun _ => false)
        [⟨1, 101, "s"⟩]).1
      = [SigAction.termGroup 101, SigAction.waitGrace 3]
    ∧ (stop_all_nodes (fun _ => true) (fun _ => false) [⟨1, 101, "s"⟩]).2
      = [] := by
  have h := stop_all_nodes_spec (fun _ => true) (fun _ => false)
    [⟨1, 101, "s"⟩] (fun e _ => rfl)
  exact ⟨h.1.trans (by decide), h.2.1⟩

/-- C3 counterexample: with both nodes of an N = 2 fleet fully
provisioned but a filesystem failure while writing node 1's launch
script, `start_all_nodes` aborts the fleet-wide operation: node 2 is
never attempted and no aggregate count is reported — the exception from
`create_node_script` (called outside the `try` of `start_node`) escapes
the loop. -/
theorem start_all_aborts_on_script_failure :
    (start_all_nodes (fun i => i != 1) (fun i => some i) 2
        (fun _ => some "") []).report = none
    ∧ (start_all_nodes (fun i => i != 1) (fun i => some i) 2
        (fun _ => some "") []).attempted = [1]
    ∧ (start_all_nodes (fun i => i != 1) (fun i => some i) 2
        (fun _ => some "") []).table = [] := by
  refine ⟨?_, ?_, ?_⟩ <;> rfl

theorem start_all_go_total_when_writes_ok (writeOk : Nat → Bool)
    (spawn : Nat → Option Nat) (h : ∀ i, writeOk i = true) :
    ∀ (ids : List Nat) (fs : FS) (st : FleetState) (count : Nat)
      (att : List Nat),
      ∃ (n : Nat) (new : FleetState) (fs' : FS),
        start_all_go writeOk spawn ids fs st count att
          = ⟨some (count + n), fs', st ++ new, att ++ ids⟩
        ∧ new.length = n := by
  intro ids
  induction ids with
  | nil =>
    intro fs st count att
    exact ⟨0, [], fs, by simp [start_all_go], rfl⟩
  | cons i rest ih =>
    intro fs st count att
    rw [start_all_go]
    unfold start_node
    by_cases hr : check_node_ready fs i = false
    · rw [if_pos hr]
      rcases ih fs st count (att ++ [i]) with ⟨n, new, fs', heq, hlen⟩
      exact ⟨n, new, fs', by simp only [heq, List.append_assoc,
        List.singleton_append], hlen⟩
    · rw [if_neg hr, if_neg (by simp [h i])]
      rcases hs : spawn i with _ | pid
      · rcases ih (create_node_script fs i).2 st count (att ++ [i]) with
          ⟨n, new, fs', heq, hlen⟩
        exact ⟨n, new, fs', by simp only [heq, List.append_assoc,
          List.singleton_append], hlen⟩
      · rcases ih (create_node_script fs i).2
          (st ++ [⟨i, pid, script_path i⟩]) (count + 1) (att ++ [i]) with
          ⟨n, new, fs', heq, hlen⟩
        refine ⟨n + 1, ⟨i, pid, script_path i⟩ :: new, fs', ?_, by simp [hlen]⟩
        simp only [heq, List.append_assoc, List.singleton_append]
        have : count + 1 + n = count + (n + 1) := by omega
        rw [this]

/-- C3 amended: failures surfaced as `NotReady` or `SpawnError` never
abort `start_all_nodes`: whenever no launch-script write fails, every
node_id 1..N is attempted in increasing order, the loop runs to
completion reporting an aggregate count, and that count equals the
number of entries appended to the FleetTable (the successful starts).
A script-write failure, however, raises out of `start_node` (the call
is outside its `try`) and aborts the remaining node_ids. -/
theorem start_all_isolates_nonfatal_failures (writeOk : Nat → Bool)
    (spawn : Nat → Option Nat) (N : Nat) (fs : FS) (st : FleetState)
    (h : ∀ i, writeOk i = true) :
    ∃ (count : Nat) (new : FleetState),
      (start_all_nodes writeOk spawn N fs st).report = some count
      ∧ (start_all_nodes writeOk spawn N fs st).attempted = List.range' 1 N
      ∧ (start_all_nodes writeOk spawn N fs st).table = st ++ new
      ∧ new.length = count := by
  rcases start_all_go_total_when_writes_ok writeOk spawn h
    (List.range' 1 N) fs st 0 [] with ⟨n, new, fs', heq, hlen⟩
  refine ⟨n, new, ?_, ?_, ?_, hlen⟩ <;>
    simp [start_all_nodes, heq]

/-- Witness for `start_all_isolates_nonfatal_failures`: a 3-node fleet
with all script writes succeeding. -/
theorem start_all_isolates_witness :
    ∃ (count : Nat) (new : FleetState),
      (start_all_nodes (fun _ => true) (fun i => some (100 + i)) 3
          (fun _ => some "") []).report = some count
      ∧ (start_all_nodes (fun _ => true) (fun i => some (100 + i)) 3
          (fun _ => some "") []).attempted = List.range' 1 3
      ∧ (start_all_nodes (fun _ => true) (fun i => some (100 + i)) 3
          (fun _ => some "") []).table = [] ++ new
      ∧ new.length = count :=
  start_all_isolates_nonfatal_failures (fun _ => true)
    (fun i => some (100 + i)) 3 (fun _ => some "") [] (fun _ => rfl)

/-- C8 counterexample: there is no in-flight shutdown flag, so a second
signal delivered while the first handler is inside `stop_all_nodes`
(here: during its grace period) re-enters `stop_all_nodes` concurrently
with itself — `stop_all_nodes` is entered twice although the first
invocation never finished. -/
theorem signal_handler_reenters_stop_all :
    (sigRun [SigEvent.deliver, SigEvent.exec, SigEvent.deliver,
        SigEvent.exec]).reentered = true
    ∧ (sigRun [SigEvent.deliver, SigEvent.exec, SigEvent.deliver,
        SigEvent.exec]).stopAllEntries = 2
    ∧ (sigRun [SigEvent.deliver, SigEvent.exec, SigEvent.deliver,
        SigEvent.exec]).exited = none :=
  ⟨rfl, rfl, rfl⟩

/-- C8 amended: on receipt of an interrupt/terminate signal the handler
invokes `stop_all_nodes` synchronously and only afterwards terminates
the supervising process with exit status zero (after four of the five
phases the process has entered `stop_all_nodes` once and not yet
exited; the fifth phase exits with 0); but the handler is NOT guarded
by an in-flight shutdown flag: a second signal arriving mid-shutdown
re-enters `stop_all_nodes`. -/
theorem signal_handler_stops_then_exits_unguarded :
    (sigRun [SigEvent.deliver, SigEvent.exec, SigEvent.exec, SigEvent.exec,
        SigEvent.exec]).exited = none
    ∧ (sigRun [SigEvent.deliver, SigEvent.exec, SigEvent.exec, SigEvent.exec,
        SigEvent.exec]).stopAllEntries = 1
    ∧ (sigRun [SigEvent.deliver, SigEvent.exec, SigEvent.exec, SigEvent.exec,
        SigEvent.exec, SigEvent.exec]).exited = some 0
    ∧ (sigRun [SigEvent.deliver, SigEvent.exec, SigEvent.exec, SigEvent.exec,
        SigEvent.exec, SigEvent.exec]).reentered = false
    ∧ (sigRun [SigEvent.deliver, SigEvent.exec, SigEvent.deliver,
        SigEvent.exec]).reentered = true :=
  ⟨rfl, rfl, rfl, rfl, rfl⟩

/-- C9 counterexample: `start_node` never checks whether a node_id is
already tracked, so two successful `start_node(1)` calls reach a state
whose FleetTable lists node_id 1 twice — the at-most-once invariant
fails on a reachable state. -/
theorem duplicate_node_id_reachable :
    ∃ c : FS × FleetState,
      SupReachable (fun _ => some "") c
      ∧ tableIds c.2 = [1, 1]
      ∧ ¬ (tableIds c.2).Nodup := by
  refine ⟨applyOp (SupOp.startNodeOp 1 true (some 7))
      (applyOp (SupOp.startNodeOp 1 true (some 6)) ((fun _ => some ""), [])),
    SupReachable.step _ _ (SupReachable.step _ _ SupReachable.init),
    ?_, ?_⟩
  · decide
  · decide

theorem applyOp_startNode_table (fs : FS) (w : Bool) (sp : Option Nat)
    (i : Nat) (st : FleetState) :
    (applyOp (SupOp.startNodeOp i w sp) (fs, st)).2 = st
    ∨ ∃ pid, (applyOp (SupOp.startNodeOp i w sp) (fs, st)).2
        = st ++ [⟨i, pid, script_path i⟩] := by
  unfold applyOp start_node
  by_cases h : check_node_ready fs i = false
  · left; simp [h]
  · by_cases hw : w = false
    · left; simp [h, hw]
    · cases sp with
      | none => left; simp [h, hw]
      | some pid => right; exact ⟨pid, by simp [h, hw]⟩

theorem start_all_go_table_ids (writeOk : Nat → Bool)
    (spawn : Nat → Option Nat) :
    ∀ (ids : List Nat) (fs : FS) (st : FleetState) (count : Nat)
      (att : List Nat),
      ∃ new : FleetState,
        (start_all_go writeOk spawn ids fs st count att).table = st ++ new
        ∧ List.Sublist (tableIds new) ids := by
  intro ids
  induction ids with
  | nil =>
    intro fs st count att
    exact ⟨[], by simp [start_all_go], by simp [tableIds]⟩
  | cons i rest ih =>
    intro fs st count att
    rw [start_all_go]
    unfold start_node
    by_cases h : check_node_ready fs i = false
    · rw [if_pos h]
      rcases ih fs st count (att ++ [i]) with ⟨new, ht, hs⟩
      exact ⟨new, ht, hs.cons i⟩
    · rw [if_neg h]
      by_cases hw : writeOk i = false
      · rw [if_pos hw]
        exact ⟨[], by simp, by simp [tableIds]⟩
      · rw [if_neg hw]
        cases hsp : spawn i with
        | none =>
          rcases ih (create_node_script fs i).2 st count (att ++ [i]) with
            ⟨new, ht, hs⟩
          exact ⟨new, ht, hs.cons i⟩
        | some pid =>
          rcases ih (create_node_script fs i).2
            (st ++ [⟨i, pid, script_path i⟩]) (count + 1) (att ++ [i]) with
            ⟨new, ht, hs⟩
          refine ⟨⟨i, pid, script_path i⟩ :: new, ?_, ?_⟩
          · rw [ht]; simp
          · simpa [tableIds] using hs.cons₂ i

theorem applyOp_preserves_nodup (op : SupOp) (c : FS × FleetState)
    (hnd : (tableIds c.2).Nodup) (hf : opFresh op c.2 = true) :
    (tableIds (applyOp op c).2).Nodup := by
  obtain ⟨fs, st⟩ := c
  cases op with
  | startNodeOp i w sp =>
    rcases applyOp_startNode_table fs w sp i st with h | ⟨pid, h⟩
    · rw [h]; exact hnd
    · rw [h]
      have hi : i ∉ tableIds st := by
        simpa [opFresh] using hf
      rw [tableIds, List.map_append]
      refine List.nodup_append.mpr ⟨hnd, List.nodup_singleton i, ?_⟩
      intro a ha hb
      have hai : a = i := by simpa using hb
      subst hai
      exact hi ha
  | startAllOp n w sp =>
    rcases start_all_go_table_ids w sp (List.range' 1 n) fs st 0 [] with
      ⟨new, ht, hs⟩
    have htab : (applyOp (SupOp.startAllOp n w sp) (fs, st)).2 = st ++ new := by
      simpa [applyOp, start_all_nodes] using ht
    rw [htab, tableIds, List.map_append]
    refine List.nodup_append.mpr ⟨hnd, ?_, ?_⟩
    · exact (List.nodup_range' 1 n 1 (by decide)).sublist hs
    · intro a ha hnew
      have hmem : a ∈ List.range' 1 n := hs.mem hnew
      have hb : 1 ≤ a ∧ a < 1 + n := by
        simpa [List.mem_range'_1] using hmem
      have hf' : ∀ x, 1 ≤ x → x < 1 + n → x ∉ tableIds st := by
        simpa [opFresh] using hf
      exact hf' a hb.1 hb.2 ha
  | stopAllOp gOk alive =>
    simp [applyOp, stop_all_nodes, tableIds]
  | monitorCycleOp alive =>
    have : List.Sublist (monitor_cycle alive st) st := List.filter_sublist st
    exact hnd.sublist ((this.map Entry.node_id))

/-- C9 amended: the at-most-once invariant holds for every state reached
from a fresh supervisor by a sequence of public operations in which no
start targets a node_id already present in the table (`stop_all` and
`monitor` need no side condition, and `start_all` requires all of 1..N
absent); an unguarded repeated `start_node` for a tracked node_id is the
only way to break it. -/
theorem fleet_table_ids_nodup (ops : List SupOp) (fs0 : FS)
    (h : seqFresh ops (fs0, []) = true) :
    (tableIds (runOps ops (fs0, [])).2).Nodup := by
  have general : ∀ (l : List SupOp) (c : FS × FleetState),
      (tableIds c.2).Nodup → seqFresh l c = true →
      (tableIds (runOps l c).2).Nodup := by
    intro l
    induction l with
    | nil => intro c h1 _; exact h1
    | cons op rest ih =>
      intro c h1 h2
      rw [seqFresh, Bool.and_eq_true] at h2
      exact ih _ (applyOp_preserves_nodup op c h1 h2.1) h2.2
  exact general ops (fs0, []) (by simp [tableIds]) h

/-- Witness for `fleet_table_ids_nodup`: start a 3-node fleet, let node
2 and 3 die and be reaped by a monitor cycle, stop everything, then
start node 2 afresh. -/
theorem fleet_table_ids_nodup_witness :
    seqFresh
      [SupOp.startAllOp 3 (fun _ => true) (fun i => some (100 + i)),
       SupOp.monitorCycleOp (fun p => p == 101),
       SupOp.stopAllOp (fun _ => true) (fun _ => false),
       SupOp.startNodeOp 2 true (some 200)]
      ((fun _ => some ""), []) = true
    ∧ (tableIds (runOps
        [SupOp.startAllOp 3 (fun _ => true) (fun i => some (100 + i)),
         SupOp.monitorCycleOp (fun p => p == 101),
         SupOp.stopAllOp (fun _ => true) (fun _ => false),
         SupOp.startNodeOp 2 true (some 200)]
        ((fun _ => some ""), [])).2).Nodup :=
  ⟨by decide, fleet_table_ids_nodup
    [SupOp.startAllOp 3 (fun _ => true) (fun i => some (100 + i)),
     SupOp.monitorCycleOp (fun p => p == 101),
     SupOp.stopAllOp (fun _ => true) (fun _ => false),
     SupOp.startNodeOp 2 true (some 200)]
    (fun _ => some "") (by decide)⟩
